import Mathlib

/-!
Verification companion for the Agora voice tutoring backend
(`backend/app/graph/*`).  The Python turn-processing pipeline is shallowly
embedded: the LangGraph `TutorState` record becomes a Lean structure, every
graph node (`load_memory`, `router`, `rag`, `socrates`, `quiz`,
`update_memory`, `tts`) becomes a pure function over that structure, and
every external capability (Gemini generation and embeddings, Qdrant search
and upsert, the TTS provider, the wall clock) is supplied through an
environment record whose fields return `Except String` values -- `.error`
models the Python call raising an exception that the node catches in its
`except` block.  Python `int` is modelled as `Int`, `float` wall-clock
amounts as `Rat`, timestamps as `Nat` ticks, and byte buffers as `List Nat`.
-/

namespace Agora

/-- Python whitespace class used by `str.strip` and by the regex class
`\s` (space, tab, newline, carriage return, vertical tab, form feed). -/
def isSpaceChar (c : Char) : Bool :=
  c == ' ' || c == '\t' || c == '\n' || c == '\r' || c == '\x0b' || c == '\x0c'

/-- `listStartsWith pat cs` is true when `pat` is an initial segment of `cs`. -/
def listStartsWith : List Char → List Char → Bool
  | [], _ => true
  | _ :: _, [] => false
  | p :: ps, c :: cs => p == c && listStartsWith ps cs

/-- Occurrence of `pat` as a contiguous segment anywhere in `cs`
(the semantics of Python `pat in s` for strings). -/
def listOccurs (pat : List Char) : List Char → Bool
  | [] => listStartsWith pat []
  | c :: cs => listStartsWith pat (c :: cs) || listOccurs pat cs

/-- Python substring containment `pat in s`. -/
def containsSubstr (s pat : String) : Bool :=
  listOccurs pat.data s.data

/-- Python `str.strip()` (both ends, Python whitespace class). -/
def py_strip (s : String) : String :=
  ⟨((s.data.dropWhile isSpaceChar).reverse.dropWhile isSpaceChar).reverse⟩

/-- Python `str.lower()` (ASCII case mapping suffices for this code base). -/
def py_lower (s : String) : String :=
  ⟨s.data.map Char.toLower⟩

/-- Python `str.upper()` (ASCII case mapping suffices for this code base). -/
def py_upper (s : String) : String :=
  ⟨s.data.map Char.toUpper⟩

/-- One left-to-right non-overlapping replacement pass over a character
list, with fuel bounding the recursion (the fuel is set to the list length,
which always suffices because every step consumes at least one character). -/
def replaceChars : Nat → List Char → List Char → List Char → List Char
  | _, _, _, [] => []
  | 0, _, _, cs => cs
  | fuel + 1, pat, repl, c :: cs =>
    if listStartsWith pat (c :: cs) then
      repl ++ replaceChars fuel pat repl ((c :: cs).drop pat.length)
    else
      c :: replaceChars fuel pat repl cs

/-- Python `str.replace(pat, repl)` for a non-empty pattern (the code only
replaces the one-character patterns "?" and "."). -/
def py_replace (s pat repl : String) : String :=
  if pat.data.isEmpty then s
  else ⟨replaceChars s.data.length pat.data repl.data s.data⟩

/-- Python `", ".join(xs)`-style joining. -/
def join_with (sep : String) : List String → String
  | [] => ""
  | [x] => x
  | x :: xs => x ++ sep ++ join_with sep xs

/-- Python `list(set(xs))` deduplication (set iteration order is
unspecified in Python; we fix the order-preserving concretization that
keeps the first occurrence of each element). -/
def dedup (l : List String) : List String :=
  l.foldl (fun acc x => if x ∈ acc then acc else acc ++ [x]) []

/-- Last `n` elements of a list (Python `lst[-n:]` for `n > 0`). -/
def takeLast {α : Type} (l : List α) (n : Nat) : List α := l.drop (l.length - n)

/-! ## Data model (`backend/app/graph/state.py`) -/

/-- `TutorMode` enum. -/
inductive TutorMode
  | socratic
  | quiz
  | explain
  | visual
deriving DecidableEq, Repr

/-- `.value` of the Python string enum. -/
def TutorMode.value : TutorMode → String
  | .socratic => "socratic"
  | .quiz => "quiz"
  | .explain => "explain"
  | .visual => "visual"

/-- `RoutingDecision` enum. -/
inductive RoutingDecision
  | new_question
  | answer_to_my_question
  | frustrated_interruption
  | request_for_visual
  | quiz_me
deriving DecidableEq, Repr

/-- `.value` of the Python string enum. -/
def RoutingDecision.value : RoutingDecision → String
  | .new_question => "new_question"
  | .answer_to_my_question => "answer_to_my_question"
  | .frustrated_interruption => "frustrated_interruption"
  | .request_for_visual => "request_for_visual"
  | .quiz_me => "quiz_me"

/-- A value stored in a visual-action payload dict. -/
inductive PayloadValue
  | str (s : String)
  | num (n : Int)
deriving DecidableEq, Repr

/-- `VisualAction` TypedDict: an action tag plus a payload map. -/
structure VisualAction where
  action : String
  payload : List (String × PayloadValue)
deriving DecidableEq, Repr

/-- `Message` TypedDict. -/
structure Message where
  role : String
  content : String
  timestamp : Nat
deriving DecidableEq, Repr

/-- `RAGContext` TypedDict. -/
structure RAGContext where
  text : String
  score : Rat
  metadata : List (String × String)
deriving DecidableEq, Repr

/-- `MemorySummary` TypedDict. -/
structure MemorySummary where
  mastered : List String
  confused : List String
  last_updated : Nat
deriving DecidableEq, Repr

/-- `TutorState` TypedDict: the session state threaded through the graph. -/
structure TutorState where
  user_id : String
  session_id : String
  course_id : Option String
  messages : List Message
  last_user_text : String
  last_audio_format : Option String
  mode : TutorMode
  routing : Option RoutingDecision
  rag_context : List RAGContext
  rag_query : Option String
  memory_summary : Option MemorySummary
  turn_count : Int
  frustration_level : Int
  consecutive_same_questions : Int
  response_text : String
  visual_actions : List VisualAction
  should_tts : Bool
  audio_data : Option (List Nat)
  error : Option String
  processing_time : Rat
deriving DecidableEq, Repr

/-- `create_initial_state` from `state.py`. -/
def create_initial_state (user_id session_id : String)
    (course_id : Option String) : TutorState where
  user_id := user_id
  session_id := session_id
  course_id := course_id
  messages := []
  last_user_text := ""
  last_audio_format := none
  mode := TutorMode.socratic
  routing := none
  rag_context := []
  rag_query := none
  memory_summary := none
  turn_count := 0
  frustration_level := 0
  consecutive_same_questions := 0
  response_text := ""
  visual_actions := []
  should_tts := true
  audio_data := none
  error := none
  processing_time := 0

/-- `add_message` from `state.py`; the timestamp (`time.time()` in Python)
is passed in explicitly. -/
def add_message (st : TutorState) (role content : String) (now : Nat) :
    TutorState :=
  { st with messages := st.messages ++ [⟨role, content, now⟩] }

/-- `get_conversation_context` from `state.py`: last `max_turns*2` messages
(all of them when `max_turns` is zero/falsy), one "Student: ..."/"Tutor: ..."
line per message, joined with newlines. -/
def get_conversation_context (st : TutorState) (max_turns : Int) : String :=
  let recent :=
    if max_turns ≠ 0 then takeLast st.messages (max_turns * 2).toNat
    else st.messages
  join_with "\n"
    (recent.map fun m =>
      (if m.role = "student" then "Student" else "Tutor") ++ ": " ++ m.content)

/-! ## External capabilities

Each node calls out to Gemini, Qdrant, or the TTS provider and wraps the
call in `try`/`except`.  The outcome of each call site is supplied by this
environment record: `.ok` is a normal return, `.error e` models the call
raising an exception with message `e`.  Generation calls receive the prompt
the node built (the system prompt and fixed keyword arguments are absorbed
into the environment function). -/

/-- A memory record fetched from the Qdrant memory collection
(the `memory_data` payload of `qdrant_service.get_memory`). -/
structure MemoryRecord where
  mastered : List String
  confused : List String
deriving DecidableEq, Repr

/-- The structured JSON produced by `gemini_service.generate_json` for the
memory-analysis prompt. -/
structure MemoryJson where
  mastered : List String
  confused : List String
deriving DecidableEq, Repr

/-- One result of `qdrant_service.search_notes`. -/
structure SearchResult where
  text : String
  score : Rat
  metadata : List (String × String)
deriving DecidableEq, Repr

/-- Outcomes of every external call site reachable in one turn, plus the
relevant `settings` fields, the clock, and the per-stage elapsed times
recorded by `create_timed_node`.  `graph_failure = some e` models an
exception escaping the stage wrappers (LangGraph machinery itself failing),
which only the top-level handler in `process_user_input` catches. -/
structure Env where
  now : Nat
  memory_update_interval : Int
  frustration_threshold : Int
  node_elapsed : String → Rat
  get_memory : Except String (List MemoryRecord)
  generate_text_router : String → Except String String
  embed_query : String → Except String (List Rat)
  search_notes : List Rat → Except String (List SearchResult)
  generate_text_socratic : String → Except String String
  generate_text_quiz : String → Except String String
  generate_json_memory : String → Except String MemoryJson
  embed_text : String → Except String (List Rat)
  upsert_memory : Except String Unit
  tts_synthesize : String → Except String (Option (List Nat))
  graph_failure : Option String

/-! ## Memory nodes (`backend/app/graph/nodes/memory.py`) -/

/-- `load_memory_node`: fetch up to 5 memory records, union their
mastered/confused lists, dedupe, drop mastered topics from confused; on an
empty history initialize empty sets; on a fetch failure (the `except`
branch) initialize empty sets and set `error`. -/
def load_memory_node (env : Env) (st : TutorState) : TutorState :=
  match env.get_memory with
  | .error e =>
    { st with
      memory_summary := some ⟨[], [], env.now⟩
      error := some ("Memory load error: " ++ e) }
  | .ok memories =>
    if memories = [] then
      { st with memory_summary := some ⟨[], [], env.now⟩ }
    else
      let all_mastered := dedup (memories.foldl (fun acc m => acc ++ m.mastered) [])
      let all_confused0 := dedup (memories.foldl (fun acc m => acc ++ m.confused) [])
      let all_confused := all_confused0.filter fun t => decide (t ∉ all_mastered)
      { st with memory_summary := some ⟨all_mastered, all_confused, env.now⟩ }

/-- The f-string prompt sent to `generate_json` by `update_memory_node`. -/
def memory_analysis_prompt (context : String) : String :=
  "Recent Conversation:\n" ++ context ++ "\n\nAnalyze this conversation:"

/-- Lines 184-194 of `memory.py`: union the analysis result into the
current memory, dedupe, and drop mastered topics from confused. -/
def memory_merge (cur : MemorySummary) (mj : MemoryJson) (now : Nat) :
    MemorySummary :=
  let new_mastered := dedup (cur.mastered ++ mj.mastered)
  let new_confused0 := dedup (cur.confused ++ mj.confused)
  let new_confused := new_confused0.filter fun t => decide (t ∉ new_mastered)
  ⟨new_mastered, new_confused, now⟩

/-- The f-string serialized memory sentence embedded before the upsert. -/
def memory_sentence (m : MemorySummary) : String :=
  "Mastered: " ++ join_with ", " m.mastered ++ ". Confused: " ++
    join_with ", " m.confused ++ "."

/-- `update_memory_node`, instrumented with a Bool recording whether the
Qdrant upsert call (the store write) was reached.  Mirrors the control flow
of `memory.py` lines 130-237: skip unless `turn_count` is a multiple of the
interval, skip on blank context, and convert any raised exception into the
`except` branch that only sets `error` (leaving the memory at whatever was
assigned before the exception). -/
def update_memory_run (env : Env) (st : TutorState) : TutorState × Bool :=
  if st.turn_count % env.memory_update_interval ≠ 0 then (st, false)
  else
    let context := get_conversation_context st env.memory_update_interval
    if context = "" ∨ py_strip context = "" then (st, false)
    else
      match env.generate_json_memory (memory_analysis_prompt context) with
      | .error e => ({ st with error := some ("Memory update error: " ++ e) }, false)
      | .ok mj =>
        let current := st.memory_summary.getD ⟨[], [], 0⟩
        let updated := memory_merge current mj env.now
        let st1 := { st with memory_summary := some updated }
        match env.embed_text (memory_sentence updated) with
        | .error e =>
          ({ st1 with error := some ("Memory update error: " ++ e) }, false)
        | .ok _ =>
          match env.upsert_memory with
          | .error e =>
            ({ st1 with error := some ("Memory update error: " ++ e) }, true)
          | .ok _ => (st1, true)

/-- `update_memory_node` as used in the graph (state part only). -/
def update_memory_node (env : Env) (st : TutorState) : TutorState :=
  (update_memory_run env st).1

/-! ## Router node (`backend/app/graph/nodes/router.py`) -/

/-- The f-string classification prompt built by `router_node`. -/
def router_prompt (context user_input : String) : String :=
  "Conversation Context:\n" ++ context ++ "\n\nStudent\x27s Latest Input: " ++
    user_input ++ "\n\nClassification:"

/-- `router_node`: default to `new_question` on blank input; otherwise
classify the utterance with Gemini and parse the raw response by substring
containment in the fixed order of `router.py` lines 88-104, bumping
`frustration_level` (capped at 5) on the frustration label; on a raised
exception default to `new_question` and set `error`. -/
def router_node (env : Env) (st : TutorState) : TutorState :=
  if st.last_user_text = "" ∨ py_strip st.last_user_text = "" then
    { st with routing := some RoutingDecision.new_question }
  else
    let context := get_conversation_context st 3
    match env.generate_text_router (router_prompt context st.last_user_text) with
    | .error e =>
      { st with
        routing := some RoutingDecision.new_question
        error := some ("Router error: " ++ e) }
    | .ok raw =>
      let c := py_upper (py_strip raw)
      if containsSubstr c "NEW_QUESTION" then
        { st with routing := some RoutingDecision.new_question }
      else if containsSubstr c "ANSWER_TO_MY_QUESTION" then
        { st with routing := some RoutingDecision.answer_to_my_question }
      else if containsSubstr c "FRUSTRATED" || containsSubstr c "FRUSTRATION" then
        { st with
          routing := some RoutingDecision.frustrated_interruption
          frustration_level := min (st.frustration_level + 1) 5 }
      else if containsSubstr c "VISUAL" || containsSubstr c "REQUEST_FOR_VISUAL" then
        { st with routing := some RoutingDecision.request_for_visual }
      else if containsSubstr c "QUIZ" then
        { st with routing := some RoutingDecision.quiz_me }
      else
        { st with routing := some RoutingDecision.new_question }

/-! ## RAG node (`backend/app/graph/nodes/rag.py`) -/

/-- The fixed list of generic "what is in my document" phrasings. -/
def generic_queries : List String :=
  [ "what is in that pdf"
  , "what is in my pdf"
  , "what are my notes about"
  , "tell me about my document"
  , "what is this pdf about"
  , "so what is in that pdf you tell me"
  , "give me an idea first"
  ]

/-- The canonical broad-summary query substituted for generic queries. -/
def broad_summary_query : String :=
  "A general summary of all topics, concepts, and content in the document."

/-- Line 45 of `rag.py`: lowercase, strip, remove "?" and ".". -/
def normalize_query (q : String) : String :=
  py_replace (py_replace (py_strip (py_lower q)) "?" "") "." ""

/-- Lines 46-57 of `rag.py`: the normalized query contains one of the
generic phrasings as a substring. -/
def is_generic_query (q : String) : Bool :=
  generic_queries.any fun g => containsSubstr (normalize_query q) g

/-- Externally visible calls made by the RAG node, in order. -/
inductive RagEvent
  | embed (query : String)
  | search
deriving DecidableEq, Repr

/-- `rag_node`, instrumented with the trace of capability calls it makes.
Mirrors `rag.py`: skip (with `rag_context = []`) unless routing is
`new_question` or `quiz_me`; rewrite generic meta-queries to the canonical
broad query; skip on a blank query; embed then search, converting a raised
exception into the `except` branch (`rag_context = []` plus `error`). -/
def rag_run (env : Env) (st : TutorState) : TutorState × List RagEvent :=
  if st.routing ≠ some RoutingDecision.new_question ∧
      st.routing ≠ some RoutingDecision.quiz_me then
    ({ st with rag_context := [] }, [])
  else
    let query_text := st.last_user_text
    let query_text :=
      if is_generic_query query_text then broad_summary_query else query_text
    if query_text = "" ∨ py_strip query_text = "" then
      ({ st with rag_context := [] }, [])
    else
      match env.embed_query query_text with
      | .error e =>
        ({ st with rag_context := [], error := some ("RAG error: " ++ e) },
         [RagEvent.embed query_text])
      | .ok emb =>
        match env.search_notes emb with
        | .error e =>
          ({ st with rag_context := [], error := some ("RAG error: " ++ e) },
           [RagEvent.embed query_text, RagEvent.search])
        | .ok results =>
          let ctxs := results.map fun r =>
            ({ text := r.text, score := r.score, metadata := r.metadata } : RAGContext)
          ({ st with rag_context := ctxs, rag_query := some query_text },
           [RagEvent.embed query_text, RagEvent.search])

/-- `rag_node` as used in the graph (state part only). -/
def rag_node (env : Env) (st : TutorState) : TutorState :=
  (rag_run env st).1

/-- The query strings passed to the query-embedding capability in a trace. -/
def embedArgs (events : List RagEvent) : List String :=
  events.filterMap fun e =>
    match e with
    | RagEvent.embed q => some q
    | RagEvent.search => none

/-! ## Visual-directive extraction (`socrates.py` lines 115-158; the same
regex is inlined verbatim in `quiz.py` lines 98-125)

The Python code matches
`\[VISUAL:\s*CREATE_NOTE\s*\|\s*text:\s*"([^"]+)"\s*\|\s*x:\s*(\d+)\s*\|\s*y:\s*(\d+)\]`
with `re.finditer` (leftmost, non-overlapping) and removes the same matches
with `re.sub`.  Because every `\s*`, `[^"]+` and `\d+` is followed by a
delimiter outside its character class, the regex is deterministic and is
implemented here as a direct scanner. -/

/-- Consume a literal token. -/
def stripLit (lit cs : List Char) : Option (List Char) :=
  if listStartsWith lit cs then some (cs.drop lit.length) else none

/-- Consume `\s*`. -/
def dropSpaces (cs : List Char) : List Char := cs.dropWhile isSpaceChar

/-- Numeric value of a digit run (`int()` of the captured group). -/
def digitsToNat (cs : List Char) : Nat :=
  cs.foldl (fun n c => 10 * n + (c.toNat - 48)) 0

/-- Try to match one visual directive starting exactly here; on success
return the parsed action and the remaining characters after the `]`. -/
def tryParseDirective (cs : List Char) : Option (VisualAction × List Char) := do
  let cs ← stripLit "[VISUAL:".data cs
  let cs := dropSpaces cs
  let cs ← stripLit "CREATE_NOTE".data cs
  let cs := dropSpaces cs
  let cs ← stripLit "|".data cs
  let cs := dropSpaces cs
  let cs ← stripLit "text:".data cs
  let cs := dropSpaces cs
  let cs ← stripLit "\"".data cs
  let txt := cs.takeWhile fun c => c != '"'
  if txt.isEmpty then none else do
  let cs := cs.drop txt.length
  let cs ← stripLit "\"".data cs
  let cs := dropSpaces cs
  let cs ← stripLit "|".data cs
  let cs := dropSpaces cs
  let cs ← stripLit "x:".data cs
  let cs := dropSpaces cs
  let xs := cs.takeWhile Char.isDigit
  if xs.isEmpty then none else do
  let cs := cs.drop xs.length
  let cs := dropSpaces cs
  let cs ← stripLit "|".data cs
  let cs := dropSpaces cs
  let cs ← stripLit "y:".data cs
  let cs := dropSpaces cs
  let ys := cs.takeWhile Char.isDigit
  if ys.isEmpty then none else do
  let cs := cs.drop ys.length
  let cs ← stripLit "]".data cs
  some
    ( { action := "CREATE_NOTE"
      , payload :=
          [ ("text", PayloadValue.str ⟨txt⟩)
          , ("x", PayloadValue.num (digitsToNat xs : Int))
          , ("y", PayloadValue.num (digitsToNat ys : Int)) ] }
    , cs)

/-- Leftmost non-overlapping scan: at each position either a directive
matches (collect it and continue after its end) or the character is kept.
The fuel starts at the list length and suffices because every step consumes
at least one character. -/
def scanVisuals : Nat → List Char → List Char × List VisualAction
  | _, [] => ([], [])
  | 0, cs => (cs, [])
  | fuel + 1, c :: cs =>
    match tryParseDirective (c :: cs) with
    | some (va, rest) =>
      let r := scanVisuals fuel rest
      (r.1, va :: r.2)
    | none =>
      let r := scanVisuals fuel cs
      (c :: r.1, r.2)

/-- `extract_visual_actions`: matched directives become `VisualAction`s,
are removed from the visible text, and the result is stripped. -/
def extract_visual_actions (s : String) : String × List VisualAction :=
  let r := scanVisuals s.data.length s.data
  (py_strip ⟨r.1⟩, r.2)

/-! ## Generator nodes (`socrates.py`, `quiz.py`) -/

/-- `build_socratic_prompt` from `socrates.py`. -/
def build_socratic_prompt (env : Env) (st : TutorState) : String :=
  let context := get_conversation_context st 5
  let rag_text :=
    if st.rag_context = [] then ""
    else
      join_with "\n"
        ((st.rag_context.take 3).enum.map fun p =>
          "[Note " ++ toString (p.1 + 1) ++ "] " ++ p.2.text)
  let memory_text :=
    match st.memory_summary with
    | none => ""
    | some m =>
      (if m.mastered ≠ [] then
        "Student has mastered: " ++ join_with ", " m.mastered ++ "\n" else "") ++
      (if m.confused ≠ [] then
        "Student struggles with: " ++ join_with ", " m.confused ++ "\n" else "")
  let frustration_note :=
    if st.frustration_level ≥ env.frustration_threshold then
      "\n⚠️ FRUSTRATION LEVEL HIGH (" ++ toString st.frustration_level ++
        "/5): Provide more direct guidance."
    else ""
  "CONTEXT:\n" ++ context ++
    "\n\nSTUDENT\x27S CURRENT INPUT: " ++ st.last_user_text ++
    "\n\nRELEVANT NOTES:\n" ++
    (if rag_text = "" then "No specific notes retrieved." else rag_text) ++
    "\n\nSTUDENT KNOWLEDGE:\n" ++
    (if memory_text = "" then "No historical data yet." else memory_text) ++
    "\n\nROUTING: " ++
    (match st.routing with
     | some r => r.value
     | none => "unknown") ++
    "\nMODE: " ++ st.mode.value ++ "\n" ++ frustration_note ++
    "\n\nGenerate your Socratic response:"

/-- `socrates_node`: generate a Socratic response, extract visual actions,
set `should_tts`; on a raised exception substitute the fixed apologetic
fallback with empty visual actions and set `error`. -/
def socrates_node (env : Env) (st : TutorState) : TutorState :=
  match env.generate_text_socratic (build_socratic_prompt env st) with
  | .error e =>
    { st with
      response_text :=
        "I\x27m having trouble processing that. Could you rephrase your question?"
      visual_actions := []
      should_tts := true
      error := some ("Socrates error: " ++ e) }
  | .ok response =>
    let p := extract_visual_actions response
    { st with
      response_text := p.1
      visual_actions := p.2
      should_tts := true }

/-- The quiz topics: `memory_summary.confused`, falling back to
`["the material"]` when the memory is missing or has no confused topics. -/
def quiz_topics (st : TutorState) : List String :=
  let confused_topics :=
    match st.memory_summary with
    | some m => m.confused
    | none => []
  if confused_topics = [] then ["the material"] else confused_topics

/-- The f-string quiz prompt from `quiz.py`. -/
def quiz_prompt (st : TutorState) : String :=
  let rag_text :=
    if st.rag_context = [] then ""
    else
      join_with "\n"
        ((st.rag_context.take 2).enum.map fun p =>
          "[Reference " ++ toString (p.1 + 1) ++ "] " ++ p.2.text)
  "TOPICS TO QUIZ ON:\n" ++ join_with ", " (quiz_topics st) ++
    "\n\nREFERENCE NOTES:\n" ++
    (if rag_text = "" then "No specific notes available." else rag_text) ++
    "\n\nSTUDENT\x27S REQUEST: " ++ st.last_user_text ++
    "\n\nGenerate a quiz question:"

/-- `quiz_node`: generate a quiz question, extract visual hints with the
same inlined regex as `socrates.py`, set `should_tts`; on a raised
exception substitute the fixed fallback question and set `error`. -/
def quiz_node (env : Env) (st : TutorState) : TutorState :=
  match env.generate_text_quiz (quiz_prompt st) with
  | .error e =>
    { st with
      response_text :=
        "Let\x27s start with a question: Can you explain the main concept we\x27ve been discussing?"
      visual_actions := []
      should_tts := true
      error := some ("Quiz error: " ++ e) }
  | .ok response =>
    let p := extract_visual_actions response
    { st with
      response_text := p.1
      visual_actions := p.2
      should_tts := true }

/-! ## TTS node (`backend/app/graph/nodes/tts_node.py`) -/

/-- `tts_node`: no-op (`audio_data = none`) when `should_tts` is off or the
response text is blank; otherwise synthesize, storing `none` plus `error`
on a raised exception. -/
def tts_node (env : Env) (st : TutorState) : TutorState :=
  if st.should_tts = false then { st with audio_data := none }
  else if st.response_text = "" ∨ py_strip st.response_text = "" then
    { st with audio_data := none }
  else
    match env.tts_synthesize st.response_text with
    | .error e =>
      { st with audio_data := none, error := some ("TTS error: " ++ e) }
    | .ok audio => { st with audio_data := audio }

/-! ## Orchestrator (`backend/app/graph/builder.py`) -/

/-- `create_timed_node`: run the node and add its elapsed wall-clock time
to `processing_time`. -/
def create_timed_node (f : Env → TutorState → TutorState) (name : String)
    (env : Env) (st : TutorState) : TutorState :=
  let r := f env st
  { r with processing_time := r.processing_time + env.node_elapsed name }

/-- `routing_decision`: the conditional edge after the RAG node. -/
def routing_decision (st : TutorState) : String :=
  if st.routing = some RoutingDecision.quiz_me then "quiz" else "socrates"

/-- The conditional generator stage selected by `routing_decision`. -/
def generator_stage (env : Env) (st : TutorState) : TutorState :=
  if routing_decision st = "quiz" then create_timed_node quiz_node "quiz" env st
  else create_timed_node socrates_node "socrates" env st

/-- The compiled graph: load_memory → router → rag → (socrates | quiz) →
update_memory → tts, each stage wrapped by `create_timed_node`. -/
def run_graph_stages (env : Env) (st : TutorState) : TutorState :=
  let s1 := create_timed_node load_memory_node "load_memory" env st
  let s2 := create_timed_node router_node "router" env s1
  let s3 := create_timed_node rag_node "rag" env s2
  let s4 := generator_stage env s3
  let s5 := create_timed_node update_memory_node "update_memory" env s4
  create_timed_node tts_node "tts" env s5

/-- The fixed fallback text of the top-level exception handler. -/
def fallback_error_text : String :=
  "I encountered an error processing your input. Please try again."

/-- `process_user_input` (the `process_turn` contract): record the new
input, increment `turn_count`, reset `processing_time` and `error`, append
the student message, run the graph, and append the tutor message when the
response is non-empty.  An exception escaping the stage wrappers
(`env.graph_failure`) is caught by the top-level handler, which sets
`error`, substitutes the fixed fallback response with `should_tts = false`,
and returns the state instead of raising -- the Lean function is total, so
no execution path propagates an exception. -/
def process_user_input (env : Env) (state : TutorState) (user_text : String)
    (audio_format : Option String) : TutorState :=
  let st :=
    { state with
      last_user_text := user_text
      last_audio_format := audio_format
      turn_count := state.turn_count + 1
      processing_time := 0
      error := none }
  let st := add_message st "student" user_text env.now
  match env.graph_failure with
  | some e =>
    { st with
      error := some ("Processing error: " ++ e)
      response_text := fallback_error_text
      should_tts := false }
  | none =>
    let result := run_graph_stages env st
    if result.response_text ≠ "" then
      add_message result "tutor" result.response_text env.now
    else result

/-! ## Specification predicates and concrete fixtures -/

/-- The memory invariant: no topic is both confused and mastered. -/
def mem_disjoint (m : MemorySummary) : Prop :=
  ∀ t ∈ m.confused, t ∉ m.mastered

/-- The invariant lifted to the optional `memory_summary` field. -/
def mem_inv (st : TutorState) : Prop :=
  ∀ m, st.memory_summary = some m → mem_disjoint m

/-- A baseline environment in which every external call succeeds with a
benign value. -/
def env_base : Env where
  now := 0
  memory_update_interval := 5
  frustration_threshold := 3
  node_elapsed := fun _ => 0
  get_memory := .ok []
  generate_text_router := fun _ => .ok "NEW_QUESTION"
  embed_query := fun _ => .ok []
  search_notes := fun _ => .ok []
  generate_text_socratic := fun _ => .ok "What do you think?"
  generate_text_quiz := fun _ => .ok "Explain the idea."
  generate_json_memory := fun _ => .ok ⟨[], []⟩
  embed_text := fun _ => .ok []
  upsert_memory := .ok ()
  tts_synthesize := fun _ => .ok none
  graph_failure := none

/-- A freshly initialized session. -/
def st_init : TutorState := create_initial_state "u1" "s1" none

/-- Environment in which an exception escapes the stage wrappers. -/
def env_fail : Env := { env_base with graph_failure := some "boom" }

/-- Environment whose router classification call returns a quiz label. -/
def env_router_quiz : Env :=
  { env_base with generate_text_router := fun _ => .ok " quiz_me " }

/-- A session state with a non-blank utterance. -/
def st_hello : TutorState :=
  { st_init with last_user_text := "Quiz me on recursion" }

/-- A state routed to `answer_to_my_question` (retrieval must be gated). -/
def st_answer : TutorState :=
  { st_init with
    last_user_text := "It is because the stack unwinds"
    routing := some RoutingDecision.answer_to_my_question }

/-- A state on a memory-update turn (`turn_count = 5`) with dialogue. -/
def st_turn5 : TutorState :=
  { st_init with
    turn_count := 5
    messages := [⟨"student", "I am stuck on recursion", 0⟩] }

/-- A session state on a non-multiple turn (`turn_count = 3`). -/
def st_turn3 : TutorState := { st_init with turn_count := 3 }

/-- Environment whose memory-analysis call raises. -/
def env_analysis_down : Env :=
  { env_base with generate_json_memory := fun _ => .error "model unavailable" }

/-- A generic meta-query state routed to `new_question`. -/
def st_generic : TutorState :=
  { st_init with
    last_user_text := "What is in that PDF?"
    routing := some RoutingDecision.new_question }

/-- Environment whose query-embedding call raises (the trace still records
the query string the capability received). -/
def env_embed_down : Env :=
  { env_base with embed_query := fun _ => .error "embedding service down" }

/-- A generated response carrying a directive with a non-CREATE_NOTE tag. -/
def load_image_text : String :=
  "Good question! [VISUAL: LOAD_IMAGE | text: \"pic\" | x: 10 | y: 20] Keep going."

/-- A second non-CREATE_NOTE directive, as produced by the quiz generator. -/
def highlight_text : String :=
  "Try this. [VISUAL: HIGHLIGHT_REGION | text: \"here\" | x: 5 | y: 6] Go."

/-- Environment whose generators emit the non-CREATE_NOTE directives. -/
def env_other_tags : Env :=
  { env_base with
    generate_text_socratic := fun _ => .ok load_image_text
    generate_text_quiz := fun _ => .ok highlight_text }

/-! ## Helper lemmas: fields preserved by each stage -/

theorem create_timed_node_tc (f : Env → TutorState → TutorState) (name : String)
    (env : Env) (st : TutorState) :
    (create_timed_node f name env st).turn_count = (f env st).turn_count := rfl

theorem create_timed_node_fl (f : Env → TutorState → TutorState) (name : String)
    (env : Env) (st : TutorState) :
    (create_timed_node f name env st).frustration_level =
      (f env st).frustration_level := rfl

theorem add_message_tc (st : TutorState) (role content : String) (now : Nat) :
    (add_message st role content now).turn_count = st.turn_count := rfl

theorem add_message_fl (st : TutorState) (role content : String) (now : Nat) :
    (add_message st role content now).frustration_level =
      st.frustration_level := rfl

theorem load_memory_node_tc (env : Env) (st : TutorState) :
    (load_memory_node env st).turn_count = st.turn_count := by
  unfold load_memory_node
  repeat' first | rfl | split | dsimp only

theorem load_memory_node_fl (env : Env) (st : TutorState) :
    (load_memory_node env st).frustration_level = st.frustration_level := by
  unfold load_memory_node
  repeat' first | rfl | split | dsimp only

theorem router_node_tc (env : Env) (st : TutorState) :
    (router_node env st).turn_count = st.turn_count := by
  unfold router_node
  repeat' first | rfl | split | dsimp only

theorem rag_node_tc (env : Env) (st : TutorState) :
    (rag_node env st).turn_count = st.turn_count := by
  unfold rag_node rag_run
  repeat' first | rfl | split | dsimp only

theorem rag_node_fl (env : Env) (st : TutorState) :
    (rag_node env st).frustration_level = st.frustration_level := by
  unfold rag_node rag_run
  repeat' first | rfl | split | dsimp only

theorem socrates_node_tc (env : Env) (st : TutorState) :
    (socrates_node env st).turn_count = st.turn_count := by
  unfold socrates_node
  repeat' first | rfl | split | dsimp only

theorem socrates_node_fl (env : Env) (st : TutorState) :
    (socrates_node env st).frustration_level = st.frustration_level := by
  unfold socrates_node
  repeat' first | rfl | split | dsimp only

theorem quiz_node_tc (env : Env) (st : TutorState) :
    (quiz_node env st).turn_count = st.turn_count := by
  unfold quiz_node
  repeat' first | rfl | split | dsimp only

theorem quiz_node_fl (env : Env) (st : TutorState) :
    (quiz_node env st).frustration_level = st.frustration_level := by
  unfold quiz_node
  repeat' first | rfl | split | dsimp only

theorem update_memory_node_tc (env : Env) (st : TutorState) :
    (update_memory_node env st).turn_count = st.turn_count := by
  unfold update_memory_node update_memory_run
  repeat' first | rfl | split | dsimp only

theorem update_memory_node_fl (env : Env) (st : TutorState) :
    (update_memory_node env st).frustration_level = st.frustration_level := by
  unfold update_memory_node update_memory_run
  repeat' first | rfl | split | dsimp only

theorem tts_node_tc (env : Env) (st : TutorState) :
    (tts_node env st).turn_count = st.turn_count := by
  unfold tts_node
  repeat' first | rfl | split | dsimp only

theorem tts_node_fl (env : Env) (st : TutorState) :
    (tts_node env st).frustration_level = st.frustration_level := by
  unfold tts_node
  repeat' first | rfl | split | dsimp only

theorem generator_stage_tc (env : Env) (st : TutorState) :
    (generator_stage env st).turn_count = st.turn_count := by
  unfold generator_stage
  split
  · rw [create_timed_node_tc, quiz_node_tc]
  · rw [create_timed_node_tc, socrates_node_tc]

theorem generator_stage_fl (env : Env) (st : TutorState) :
    (generator_stage env st).frustration_level = st.frustration_level := by
  unfold generator_stage
  split
  · rw [create_timed_node_fl, quiz_node_fl]
  · rw [create_timed_node_fl, socrates_node_fl]

theorem run_graph_stages_tc (env : Env) (st : TutorState) :
    (run_graph_stages env st).turn_count = st.turn_count := by
  unfold run_graph_stages
  rw [create_timed_node_tc, tts_node_tc, create_timed_node_tc,
    update_memory_node_tc, generator_stage_tc, create_timed_node_tc,
    rag_node_tc, create_timed_node_tc, router_node_tc, create_timed_node_tc,
    load_memory_node_tc]

/-! ## C1 -/

/-- C1: every call to `process_user_input` returns a state whose
`turn_count` is exactly the input `turn_count` plus 1 -- both when the
graph runs to completion (`env.graph_failure = none`) and when an exception
escapes the stage wrappers and the top-level catch returns the fallback
state (`env.graph_failure = some e`).  No stage or message append touches
`turn_count`. -/
theorem process_turn_increments_turn_count (env : Env) (st : TutorState)
    (user_text : String) (audio_format : Option String) :
    (process_user_input env st user_text audio_format).turn_count =
      st.turn_count + 1 := by
  unfold process_user_input
  cases env.graph_failure with
  | some e => rfl
  | none =>
    dsimp only
    split <;> simp only [add_message_tc, run_graph_stages_tc]

/-! ## C3 -/

/-- C3: `process_user_input` never propagates an exception: the Lean
embedding is a total function, and when an exception `e` escapes the stage
graph (`env.graph_failure = some e`) the top-level handler returns a state
with a non-null error descriptor, the fixed non-empty fallback
`response_text`, and `should_tts = false`, instead of raising. -/
theorem process_turn_catches_graph_failure (env : Env) (st : TutorState)
    (user_text : String) (audio_format : Option String) (e : String)
    (h : env.graph_failure = some e) :
    (process_user_input env st user_text audio_format).error =
        some ("Processing error: " ++ e) ∧
      (process_user_input env st user_text audio_format).response_text =
        fallback_error_text ∧
      fallback_error_text ≠ "" ∧
      (process_user_input env st user_text audio_format).should_tts = false := by
  unfold process_user_input
  rw [h]
  refine ⟨rfl, rfl, ?_, rfl⟩
  decide

/-- Witness for C3 at a concrete failing environment. -/
theorem process_turn_catches_graph_failure_witness :
    env_fail.graph_failure = some "boom" ∧
      ((process_user_input env_fail st_init "hi" none).error =
          some ("Processing error: " ++ "boom") ∧
        (process_user_input env_fail st_init "hi" none).response_text =
          fallback_error_text ∧
        fallback_error_text ≠ "" ∧
        (process_user_input env_fail st_init "hi" none).should_tts = false) :=
  ⟨rfl, process_turn_catches_graph_failure env_fail st_init "hi" none "boom" rfl⟩

/-! ## C2 -/

theorem mem_disjoint_empty (n : Nat) : mem_disjoint ⟨[], [], n⟩ := by
  intro t ht
  exact absurd ht (List.not_mem_nil t)

theorem memory_merge_disjoint (cur : MemorySummary) (mj : MemoryJson) (n : Nat) :
    mem_disjoint (memory_merge cur mj n) := by
  intro t ht
  exact of_decide_eq_true (List.mem_filter.mp ht).2

/-- C2: after every `load_memory_node` call and every `update_memory_node`
call -- including their skip and error branches -- the `memory_summary`
satisfies `confused ∩ mastered = ∅`, given that the invariant held on the
input state.  Every branch of both nodes either leaves `memory_summary`
unchanged, resets it to empty sets, or writes a merge whose confused list
was filtered against the mastered list. -/
theorem memory_disjoint_invariant (env : Env) (st : TutorState)
    (h : mem_inv st) :
    mem_inv (load_memory_node env st) ∧ mem_inv (update_memory_node env st) := by
  constructor
  · intro m hm
    unfold load_memory_node at hm
    split at hm
    · obtain rfl := Option.some.inj hm
      exact mem_disjoint_empty env.now
    · split at hm
      · obtain rfl := Option.some.inj hm
        exact mem_disjoint_empty env.now
      · dsimp only at hm
        obtain rfl := Option.some.inj hm
        intro t ht
        exact of_decide_eq_true (List.mem_filter.mp ht).2
  · intro m hm
    unfold update_memory_node update_memory_run at hm
    dsimp only at hm
    split at hm
    · exact h m hm
    · split at hm
      · exact h m hm
      · split at hm
        · exact h m hm
        · split at hm
          · obtain rfl := Option.some.inj hm
            exact memory_merge_disjoint _ _ _
          · split at hm
            · obtain rfl := Option.some.inj hm
              exact memory_merge_disjoint _ _ _
            · obtain rfl := Option.some.inj hm
              exact memory_merge_disjoint _ _ _

/-- Witness for C2 at a fresh session and the baseline environment. -/
theorem memory_disjoint_invariant_witness :
    mem_inv st_init ∧
      (mem_inv (load_memory_node env_base st_init) ∧
        mem_inv (update_memory_node env_base st_init)) :=
  have h0 : mem_inv st_init := fun _ hm => Option.noConfusion hm
  ⟨h0, memory_disjoint_invariant env_base st_init h0⟩

/-! ## C4 -/

/-- C4: when the input is non-blank and the classification call returns a
raw string, `router_node` assigns routing by substring containment tested
in the fixed order NEW_QUESTION, ANSWER_TO_MY_QUESTION,
FRUSTRATED/FRUSTRATION, VISUAL/REQUEST_FOR_VISUAL, QUIZ (first match wins,
on the stripped-and-uppercased raw string); when no label matches it
defaults to `new_question`; when the classification call raises it defaults
to `new_question` and sets `error`. -/
theorem router_substring_priority (env : Env) (st : TutorState)
    (res : Except String String)
    (hne : ¬(st.last_user_text = "" ∨ py_strip st.last_user_text = ""))
    (hres : env.generate_text_router
        (router_prompt (get_conversation_context st 3) st.last_user_text) = res) :
    (∀ raw, res = Except.ok raw →
      ((containsSubstr (py_upper (py_strip raw)) "NEW_QUESTION" = true →
          (router_node env st).routing = some RoutingDecision.new_question) ∧
        (containsSubstr (py_upper (py_strip raw)) "NEW_QUESTION" = false →
          containsSubstr (py_upper (py_strip raw)) "ANSWER_TO_MY_QUESTION" = true →
          (router_node env st).routing =
            some RoutingDecision.answer_to_my_question) ∧
        (containsSubstr (py_upper (py_strip raw)) "NEW_QUESTION" = false →
          containsSubstr (py_upper (py_strip raw)) "ANSWER_TO_MY_QUESTION" = false →
          (containsSubstr (py_upper (py_strip raw)) "FRUSTRATED" = true ∨
            containsSubstr (py_upper (py_strip raw)) "FRUSTRATION" = true) →
          (router_node env st).routing =
            some RoutingDecision.frustrated_interruption) ∧
        (containsSubstr (py_upper (py_strip raw)) "NEW_QUESTION" = false →
          containsSubstr (py_upper (py_strip raw)) "ANSWER_TO_MY_QUESTION" = false →
          containsSubstr (py_upper (py_strip raw)) "FRUSTRATED" = false →
          containsSubstr (py_upper (py_strip raw)) "FRUSTRATION" = false →
          (containsSubstr (py_upper (py_strip raw)) "VISUAL" = true ∨
            containsSubstr (py_upper (py_strip raw)) "REQUEST_FOR_VISUAL" = true) →
          (router_node env st).routing =
            some RoutingDecision.request_for_visual) ∧
        (containsSubstr (py_upper (py_strip raw)) "NEW_QUESTION" = false →
          containsSubstr (py_upper (py_strip raw)) "ANSWER_TO_MY_QUESTION" = false →
          containsSubstr (py_upper (py_strip raw)) "FRUSTRATED" = false →
          containsSubstr (py_upper (py_strip raw)) "FRUSTRATION" = false →
          containsSubstr (py_upper (py_strip raw)) "VISUAL" = false →
          containsSubstr (py_upper (py_strip raw)) "REQUEST_FOR_VISUAL" = false →
          containsSubstr (py_upper (py_strip raw)) "QUIZ" = true →
          (router_node env st).routing = some RoutingDecision.quiz_me) ∧
        (containsSubstr (py_upper (py_strip raw)) "NEW_QUESTION" = false →
          containsSubstr (py_upper (py_strip raw)) "ANSWER_TO_MY_QUESTION" = false →
          containsSubstr (py_upper (py_strip raw)) "FRUSTRATED" = false →
          containsSubstr (py_upper (py_strip raw)) "FRUSTRATION" = false →
          containsSubstr (py_upper (py_strip raw)) "VISUAL" = false →
          containsSubstr (py_upper (py_strip raw)) "REQUEST_FOR_VISUAL" = false →
          containsSubstr (py_upper (py_strip raw)) "QUIZ" = false →
          (router_node env st).routing = some RoutingDecision.new_question))) ∧
    (∀ e, res = Except.error e →
      (router_node env st).routing = some RoutingDecision.new_question ∧
        (router_node env st).error = some ("Router error: " ++ e)) := by
  unfold router_node
  rw [if_neg hne]
  dsimp only
  rw [hres]
  constructor
  · intro raw hraw
    subst hraw
    dsimp only
    refine ⟨?_, ?_, ?_, ?_, ?_, ?_⟩
    · intro h1
      simp [h1]
    · intro h1 h2
      simp [h1, h2]
    · intro h1 h2 h3
      rcases h3 with h3 | h3 <;> simp [h1, h2, h3]
    · intro h1 h2 h3 h4 h5
      rcases h5 with h5 | h5 <;> simp [h1, h2, h3, h4, h5]
    · intro h1 h2 h3 h4 h5 h6 h7
      simp [h1, h2, h3, h4, h5, h6, h7]
    · intro h1 h2 h3 h4 h5 h6 h7
      simp [h1, h2, h3, h4, h5, h6, h7]
  · intro e he
    subst he
    exact ⟨rfl, rfl⟩

/-- Witness for C4: with the raw classification " quiz_me " the router
lands on `quiz_me` through the fifth check of the priority chain. -/
theorem router_substring_priority_witness :
    (router_node env_router_quiz st_hello).routing =
      some RoutingDecision.quiz_me := by
  have h := router_substring_priority env_router_quiz st_hello
    (Except.ok " quiz_me ") (by decide) rfl
  exact (h.1 " quiz_me " rfl).2.2.2.2.1 (by decide) (by decide) (by decide)
    (by decide) (by decide) (by decide) (by decide)

/-! ## C5 -/

theorem router_node_fl_cases (env : Env) (st : TutorState) :
    (router_node env st).frustration_level = st.frustration_level ∨
      ((router_node env st).frustration_level = min (st.frustration_level + 1) 5 ∧
        (router_node env st).routing =
          some RoutingDecision.frustrated_interruption) := by
  unfold router_node
  repeat' first
  | exact Or.inl rfl
  | exact Or.inr ⟨rfl, rfl⟩
  | split
  | dsimp only

theorem run_graph_stages_fl (env : Env) (st : TutorState)
    (h0 : 0 ≤ st.frustration_level) (h5 : st.frustration_level ≤ 5) :
    0 ≤ (run_graph_stages env st).frustration_level ∧
      (run_graph_stages env st).frustration_level ≤ 5 ∧
      st.frustration_level ≤ (run_graph_stages env st).frustration_level := by
  unfold run_graph_stages
  dsimp only
  simp only [create_timed_node_fl, tts_node_fl, update_memory_node_fl,
    generator_stage_fl, rag_node_fl]
  have hs1 : (create_timed_node load_memory_node "load_memory" env st).frustration_level
      = st.frustration_level := by
    rw [create_timed_node_fl, load_memory_node_fl]
  rcases router_node_fl_cases env
      (create_timed_node load_memory_node "load_memory" env st) with hr | ⟨hr, _⟩ <;>
    rw [hr, hs1] <;> omega

/-- C5: `frustration_level` stays in `[0,5]`.  The router either leaves it
unchanged or -- exactly when it lands on the frustration label -- sets it to
`min (level + 1) 5`, which saturates at 5; every other pipeline stage
preserves it; and a whole `process_user_input` turn keeps it in `[0,5]` and
never decreases it. -/
theorem frustration_level_range (env : Env) (st : TutorState)
    (user_text : String) (audio_format : Option String)
    (h0 : 0 ≤ st.frustration_level) (h5 : st.frustration_level ≤ 5) :
    (0 ≤ (router_node env st).frustration_level ∧
      (router_node env st).frustration_level ≤ 5) ∧
    ((router_node env st).frustration_level = st.frustration_level ∨
      ((router_node env st).frustration_level = min (st.frustration_level + 1) 5 ∧
        (router_node env st).routing =
          some RoutingDecision.frustrated_interruption)) ∧
    (st.frustration_level = 5 → (router_node env st).frustration_level = 5) ∧
    (load_memory_node env st).frustration_level = st.frustration_level ∧
    (rag_node env st).frustration_level = st.frustration_level ∧
    (socrates_node env st).frustration_level = st.frustration_level ∧
    (quiz_node env st).frustration_level = st.frustration_level ∧
    (update_memory_node env st).frustration_level = st.frustration_level ∧
    (tts_node env st).frustration_level = st.frustration_level ∧
    (0 ≤ (process_user_input env st user_text audio_format).frustration_level ∧
      (process_user_input env st user_text audio_format).frustration_level ≤ 5 ∧
      st.frustration_level ≤
        (process_user_input env st user_text audio_format).frustration_level) := by
  have hc := router_node_fl_cases env st
  refine ⟨?_, hc, ?_, load_memory_node_fl env st, rag_node_fl env st,
    socrates_node_fl env st, quiz_node_fl env st, update_memory_node_fl env st,
    tts_node_fl env st, ?_⟩
  · rcases hc with h | ⟨h, _⟩ <;> rw [h] <;> omega
  · intro h55
    rcases hc with h | ⟨h, _⟩ <;> rw [h] <;> omega
  · unfold process_user_input
    cases env.graph_failure with
    | some e => exact ⟨h0, h5, le_refl _⟩
    | none =>
      dsimp only
      split
      · exact run_graph_stages_fl env _ h0 h5
      · exact run_graph_stages_fl env _ h0 h5

/-- Witness for C5: a full turn from a fresh session keeps the level
inside `[0,5]`. -/
theorem frustration_level_range_witness :
    0 ≤ (process_user_input env_base st_init "hi" none).frustration_level ∧
      (process_user_input env_base st_init "hi" none).frustration_level ≤ 5 :=
  ⟨(frustration_level_range env_base st_init "hi" none (by decide)
      (by decide)).2.2.2.2.2.2.2.2.2.1,
    (frustration_level_range env_base st_init "hi" none (by decide)
      (by decide)).2.2.2.2.2.2.2.2.2.2.1⟩

/-! ## C6 -/

/-- C6: when routing is neither `new_question` nor `quiz_me` (for example
`answer_to_my_question`), the RAG stage sets `rag_context` to the empty
list and returns without calling the embedding capability or the
vector-search capability (its call trace is empty). -/
theorem rag_intent_gating (env : Env) (st : TutorState)
    (h1 : st.routing ≠ some RoutingDecision.new_question)
    (h2 : st.routing ≠ some RoutingDecision.quiz_me) :
    (rag_run env st).1.rag_context = [] ∧ (rag_run env st).2 = [] := by
  unfold rag_run
  rw [if_pos ⟨h1, h2⟩]
  exact ⟨rfl, rfl⟩

/-- Witness for C6 at routing `answer_to_my_question`. -/
theorem rag_intent_gating_witness :
    (st_answer.routing ≠ some RoutingDecision.new_question ∧
        st_answer.routing ≠ some RoutingDecision.quiz_me) ∧
      ((rag_run env_base st_answer).1.rag_context = [] ∧
        (rag_run env_base st_answer).2 = []) :=
  ⟨⟨by decide, by decide⟩,
    rag_intent_gating env_base st_answer (by decide) (by decide)⟩

/-! ## C7 -/

/-- C7 as stated is false: on `st_turn5` (turn 5, interval 5, non-blank
dialogue) with a failing analysis call, `turn_count mod interval = 0` yet
`update_memory` performs no store write, refuting the claimed
"if and only if". -/
theorem update_memory_write_iff_counterexample :
    st_turn5.turn_count % env_analysis_down.memory_update_interval = 0 ∧
      (update_memory_run env_analysis_down st_turn5).2 = false := by
  exact ⟨by decide, rfl⟩

/-- C7 amended: `update_memory` performs its store write exactly when
`turn_count mod memory_update_interval = 0` AND the extracted dialogue
context is non-blank AND the analysis call and the embedding call both
succeed; and on every turn where `turn_count` is not a multiple of the
interval it is a no-op pass-through (state returned unchanged, no store
write). -/
theorem update_memory_write_condition (env : Env) (st : TutorState) :
    ((update_memory_run env st).2 = true ↔
      (st.turn_count % env.memory_update_interval = 0 ∧
        ¬(get_conversation_context st env.memory_update_interval = "" ∨
          py_strip (get_conversation_context st env.memory_update_interval) = "") ∧
        ∃ mj, env.generate_json_memory
            (memory_analysis_prompt
              (get_conversation_context st env.memory_update_interval)) =
              Except.ok mj ∧
          ∃ v, env.embed_text
              (memory_sentence
                (memory_merge (st.memory_summary.getD ⟨[], [], 0⟩) mj env.now)) =
              Except.ok v)) ∧
    (st.turn_count % env.memory_update_interval ≠ 0 →
      update_memory_run env st = (st, false)) := by
  constructor
  · unfold update_memory_run
    by_cases hturn : st.turn_count % env.memory_update_interval ≠ 0
    · rw [if_pos hturn]
      simp [hturn]
    · rw [if_neg hturn]
      have h0 := not_not.mp hturn
      dsimp only
      by_cases hblank : get_conversation_context st env.memory_update_interval = "" ∨
          py_strip (get_conversation_context st env.memory_update_interval) = ""
      · rw [if_pos hblank]
        simp [hblank]
      · rw [if_neg hblank]
        rcases hj : env.generate_json_memory
            (memory_analysis_prompt
              (get_conversation_context st env.memory_update_interval)) with e | mj
        · simp [hj]
        · dsimp only
          rcases he : env.embed_text
              (memory_sentence
                (memory_merge (st.memory_summary.getD ⟨[], [], 0⟩) mj env.now)) with e2 | v
          · simp [hj, he]
          · rcases hu : env.upsert_memory with e3 | u
            · simp [hj, he, h0, hblank]
            · simp [hj, he, h0, hblank]
  · intro hne
    unfold update_memory_run
    rw [if_pos hne]

/-- Witness for C7 (amended): on turn 3 with interval 5 the node is a
no-op performing no write. -/
theorem update_memory_write_condition_witness :
    update_memory_run env_base st_turn3 = (st_turn3, false) :=
  (update_memory_write_condition env_base st_turn3).2 (by decide)

/-! ## C8 -/

/-- C8: the spec's concrete extraction example -- one CREATE_NOTE directive
is parsed into its action and payload and stripped from the visible text
(leaving the double space), and the result is trimmed; zero directives
leave the text unchanged with no actions; two directives (the second with
no space after the colon) are both extracted and both stripped. -/
theorem extract_visual_actions_spec :
    extract_visual_actions
        "Good question! [VISUAL: CREATE_NOTE | text: \"Try drawing it\" | x: 10 | y: 20] Keep going." =
      ("Good question!  Keep going.",
        [⟨"CREATE_NOTE",
          [("text", PayloadValue.str "Try drawing it"),
            ("x", PayloadValue.num 10), ("y", PayloadValue.num 20)]⟩]) ∧
    extract_visual_actions "No directives here." = ("No directives here.", []) ∧
    extract_visual_actions
        "A [VISUAL: CREATE_NOTE | text: \"h1\" | x: 1 | y: 2] B [VISUAL:CREATE_NOTE | text: \"h2\" | x: 3 | y: 4] C" =
      ("A  B  C",
        [⟨"CREATE_NOTE",
          [("text", PayloadValue.str "h1"),
            ("x", PayloadValue.num 1), ("y", PayloadValue.num 2)]⟩,
          ⟨"CREATE_NOTE",
          [("text", PayloadValue.str "h2"),
            ("x", PayloadValue.num 3), ("y", PayloadValue.num 4)]⟩]) := by
  refine ⟨?_, ?_, ?_⟩ <;> rfl

/-! ## C9 -/

/-- C9: for an utterance whose normalization (lowercase, strip "?" and ".")
contains one of the fixed generic phrasings, and routing that reaches
retrieval, the RAG stage passes exactly the canonical broad-summary query
string -- not the original utterance -- to the query-embedding capability. -/
theorem generic_query_rewrite (env : Env) (st : TutorState)
    (hroute : st.routing = some RoutingDecision.new_question ∨
      st.routing = some RoutingDecision.quiz_me)
    (hgen : is_generic_query st.last_user_text = true) :
    embedArgs (rag_run env st).2 = [broad_summary_query] := by
  unfold rag_run
  have hcond : ¬(st.routing ≠ some RoutingDecision.new_question ∧
      st.routing ≠ some RoutingDecision.quiz_me) :=
    fun hh => hroute.elim (fun h => hh.1 h) (fun h => hh.2 h)
  rw [if_neg hcond]
  dsimp only
  rw [hgen]
  rw [if_pos rfl]
  rw [if_neg (by decide :
    ¬(broad_summary_query = "" ∨ py_strip broad_summary_query = ""))]
  rcases env.embed_query broad_summary_query with e | emb
  · rfl
  · dsimp only
    rcases env.search_notes emb with e2 | results <;> rfl

/-- Witness for C9: the utterance "What is in that PDF?" is rewritten to
the canonical broad query before the embedding call. -/
theorem generic_query_rewrite_witness :
    (st_generic.routing = some RoutingDecision.new_question ∨
        st_generic.routing = some RoutingDecision.quiz_me) ∧
      is_generic_query st_generic.last_user_text = true ∧
      embedArgs (rag_run env_embed_down st_generic).2 = [broad_summary_query] :=
  ⟨Or.inl rfl, by decide,
    generic_query_rewrite env_embed_down st_generic (Or.inl rfl) (by decide)⟩

/-! ## C10 -/

/-- C10: the extraction regex only recognizes the CREATE_NOTE tag.  A
directive with tag LOAD_IMAGE (through `socrates_node`) or
HIGHLIGHT_REGION (through `quiz_node`) produces no visual action and is
not stripped: it remains verbatim in the `response_text` delivered to the
client. -/
theorem non_create_note_directives_ignored :
    extract_visual_actions load_image_text = (load_image_text, []) ∧
    (socrates_node env_other_tags st_init).response_text = load_image_text ∧
    (socrates_node env_other_tags st_init).visual_actions = [] ∧
    extract_visual_actions highlight_text = (highlight_text, []) ∧
    (quiz_node env_other_tags st_init).response_text = highlight_text ∧
    (quiz_node env_other_tags st_init).visual_actions = [] := by
  refine ⟨?_, ?_, ?_, ?_, ?_, ?_⟩ <;> rfl

end Agora
